import Mathlib

/-!
Verification of the pyobd2 OBD-II protocol stack.

This development shallowly embeds the parts of the library relevant to the
properties under study: the ISO 15765-4 frame queries (sequence number,
sequence length, data length, message assembly), the multi-frame
reassembler, the ELM ASCII line decoder, the message/response decoding
layer (DTC, PID-support, VIN, variable-length responses), and the
reset-confirmation guard.

Machine integers are modelled as Nat (Python integers are unbounded and
all values handled here are nonnegative); fallible paths (Python
exceptions such as IndexError, TypeError, or VehicleException) are
modelled with Except.  Python lists that may contain the None placeholder
are modelled as lists of Option values.
-/

namespace PyOBD

/-- Runtime errors of the embedded Python code. -/
inductive PyErr where
  | indexError
  | typeError
  | valueError
  | assertionError
  | vehicleError
  | dataError
  | j1699Error
  deriving DecidableEq, Repr

/-- ISO15765Frame.data_length: the total data byte count declared by the
PCI of a Single Frame (low nibble of byte 0) or First Frame (low nibble of
byte 0 times 256 plus byte 1); none for other frame types.  A Single
Frame declaring more than 7 bytes raises VehicleException; a missing byte
raises IndexError. -/
def iso15765DataLength : List Nat → Except PyErr (Option Nat)
  | [] => Except.error PyErr.indexError
  | b0 :: rest =>
    let frame_type := b0 &&& 0xF0
    let length := b0 &&& 0x0F
    if frame_type = 0x00 then
      if length > 7 then Except.error PyErr.vehicleError
      else Except.ok (some length)
    else if frame_type = 0x10 then
      match rest.head? with
      | some b1 => Except.ok (some ((length <<< 8) + b1))
      | none => Except.error PyErr.indexError
    else Except.ok none

/-- ISO15765Frame.sequence_length: the number of frames in the sequence,
when known.  Mirrors the Python truthiness test: a data length of 0 is
falsy and is returned unchanged, so only positive lengths are mapped to a
frame count. -/
def iso15765SequenceLength (data_bytes : List Nat) : Except PyErr (Option Nat) :=
  match iso15765DataLength data_bytes with
  | Except.error e => Except.error e
  | Except.ok none => Except.ok none
  | Except.ok (some 0) => Except.ok (some 0)
  | Except.ok (some (n + 1)) =>
    if n + 1 ≤ 7 then Except.ok (some 1)
    else Except.ok (some ((n + 1) / 7 + 1))

/-- ISO15765Frame.sequence_number: Single and First Frames are position 0;
Consecutive Frames combine the high bits of the last seen sequence number
with the 4-bit PCI counter, adding 16 on wraparound.  The Python
expression last_sn AND NOT 0x0F equals last_sn / 16 * 16 on nonnegative
integers; a Consecutive Frame arriving when the stored last sequence
number is None raises TypeError, exactly as the Python bit operation on
None would. -/
def iso15765SequenceNumber (data_bytes : List Nat) (last_sn : Option Nat) :
    Except PyErr (Option Nat) :=
  match data_bytes with
  | [] => Except.error PyErr.indexError
  | b0 :: _ =>
    let frame_type := b0 &&& 0xF0
    if frame_type = 0x00 ∨ frame_type = 0x10 then Except.ok (some 0)
    else if frame_type = 0x20 then
      match last_sn with
      | none => Except.error PyErr.typeError
      | some l =>
        let seq := l / 16 * 16 + (b0 &&& 0x0F)
        if seq + 7 < l then Except.ok (some (seq + 16))
        else Except.ok (some seq)
    else Except.ok none

theorem land_fifteen_eq_mod (b : Nat) : b &&& 0x0F = b % 16 :=
  Nat.and_pow_two_sub_one_eq_mod b 4

/-- Claim C2 counterexample: a First Frame declaring 8 total data bytes
has sequence_length 2 (one First Frame plus one Consecutive Frame), while
the claimed formula ceil(8/7) + 1 gives 3; and a Single Frame declaring 0
total data bytes has sequence_length 0, not 1. -/
theorem sequenceLength_c2_counterexample :
    iso15765SequenceLength [0x10, 0x08] = Except.ok (some 2) ∧
      (8 + 6) / 7 + 1 = 3 ∧ (2 : Nat) ≠ 3 ∧
      iso15765SequenceLength [0x00] = Except.ok (some 0) ∧ (0 : Nat) ≠ 1 := by
  refine ⟨rfl, by norm_num, by norm_num, rfl, by norm_num⟩

/-- Claim C2 (amended): for every ISO-15765 frame whose PCI declares a
total payload of total_bytes data bytes, sequence_length() returns 1 when
1 ≤ total_bytes ≤ 7, returns 0 when total_bytes = 0, and returns
floor(total_bytes/7) + 1 when total_bytes > 7. -/
theorem sequenceLength_of_dataLength (data_bytes : List Nat) (total_bytes : Nat)
    (h : iso15765DataLength data_bytes = Except.ok (some total_bytes)) :
    iso15765SequenceLength data_bytes =
      Except.ok (some (if total_bytes = 0 then 0
        else if total_bytes ≤ 7 then 1 else total_bytes / 7 + 1)) := by
  unfold iso15765SequenceLength
  rw [h]
  match total_bytes with
  | 0 => rfl
  | n + 1 =>
    by_cases hb : n + 1 ≤ 7
    · simp [hb]
    · simp [hb]

/-- Witness for the amended claim C2 at the First Frame declaring 20
bytes: 20 / 7 + 1 = 3 frames. -/
theorem sequenceLength_of_dataLength_witness :
    iso15765SequenceLength [0x10, 0x14] =
      Except.ok (some (if 20 = 0 then 0 else if 20 ≤ 7 then 1 else 20 / 7 + 1)) :=
  sequenceLength_of_dataLength [0x10, 0x14] 20 rfl

/-- Claim C6: for a Consecutive Frame the sequence number combines the
high bits of last_sn with the 4-bit PCI counter, plus 16 whenever that
naive value is 8 or more behind last_sn; Single and First Frames always
return sequence number 0. -/
theorem iso15765_sequence_number_spec (b0 : Nat) (rest : List Nat) (last_sn : Nat) :
    ((b0 &&& 0xF0 = 0x00 ∨ b0 &&& 0xF0 = 0x10) →
      iso15765SequenceNumber (b0 :: rest) (some last_sn) = Except.ok (some 0)) ∧
    (b0 &&& 0xF0 = 0x20 →
      iso15765SequenceNumber (b0 :: rest) (some last_sn) =
        Except.ok (some (if last_sn ≥ (last_sn - last_sn % 16) + b0 % 16 + 8
          then (last_sn - last_sn % 16) + b0 % 16 + 16
          else (last_sn - last_sn % 16) + b0 % 16))) := by
  constructor
  · intro h
    unfold iso15765SequenceNumber
    simp [h]
  · intro h
    have hne : ¬ (b0 &&& 0xF0 = 0x00 ∨ b0 &&& 0xF0 = 0x10) := by
      rw [h]; decide
    have hdiv : last_sn / 16 * 16 = last_sn - last_sn % 16 := by omega
    have hmod : b0 &&& 0x0F = b0 % 16 := land_fifteen_eq_mod b0
    unfold iso15765SequenceNumber
    simp only [hne, h, hdiv, hmod, if_false, if_true]
    by_cases hc : last_sn - last_sn % 16 + b0 % 16 + 7 < last_sn
    · have hge : last_sn ≥ last_sn - last_sn % 16 + b0 % 16 + 8 := by omega
      simp [hc, hge]
    · have hge : ¬ last_sn ≥ last_sn - last_sn % 16 + b0 % 16 + 8 := by omega
      simp [hc, hge]

/-- Witness for claim C6 at the wraparound example from the source
comment: last seen number 0x0F followed by a Consecutive Frame with
counter 1 yields 0x11. -/
theorem iso15765_sequence_number_spec_witness :
    (0x21 &&& 0xF0 = 0x20) ∧
      iso15765SequenceNumber [0x21] (some 15) =
        Except.ok (some (if 15 ≥ (15 - 15 % 16) + 0x21 % 16 + 8
          then (15 - 15 % 16) + 0x21 % 16 + 16
          else (15 - 15 % 16) + 0x21 % 16)) :=
  ⟨by decide, (iso15765_sequence_number_spec 0x21 [] 15).2 (by decide)⟩

/-! ### Reset-confirmation guard (Interface._verify_token, ELM32X._send_obd_message) -/

/-- Python truthiness of the token argument: None and 0 are falsy. -/
def tokenFalsy : Option Nat → Bool
  | none => true
  | some 0 => true
  | some (_ + 1) => false

/-- Interface._verify_token: returns (accepted, new stored token).  The
stored argument is the interface field _token (None on a fresh
interface); fresh stands for the random token carried by a newly raised
ResetRequiresConfirmation exception.  On a falsy or mismatched token the
guard stores the fresh token and rejects (raises); on a match it returns
with the stored token unchanged. -/
def verifyToken (stored token : Option Nat) (fresh : Nat) : Bool × Option Nat :=
  if tokenFalsy token ∨ token ≠ stored then (false, some fresh)
  else (true, stored)

/-- ELM32X._send_obd_message, token-guard portion: the guard is invoked
only when the first message byte is SID $04; an empty message raises
IndexError. -/
def sendObdMessageGuard (stored : Option Nat) (message : List Nat)
    (token : Option Nat) (fresh : Nat) : Except PyErr (Bool × Option Nat) :=
  match message with
  | [] => Except.error PyErr.indexError
  | m0 :: _ =>
    if m0 = 0x04 then Except.ok (verifyToken stored token fresh)
    else Except.ok (true, stored)

/-- Claim C1 counterexample: starting from a fresh interface (stored
token None), the first Service $04 send rejects and stores the fresh
token 1; a retry with token 1 is accepted and the stored token is NOT
cleared (it remains 1), so a third Service $04 request presenting the
very same token 1 is accepted again — the token is accepted twice,
refuting single-use. -/
theorem verify_token_c1_counterexample :
    sendObdMessageGuard none [0x04] none 1 = Except.ok (false, some 1) ∧
      sendObdMessageGuard (some 1) [0x04] (some 1) 2 = Except.ok (true, some 1) ∧
      sendObdMessageGuard (some 1) [0x04] (some 1) 3 = Except.ok (true, some 1) := by
  refine ⟨rfl, rfl, rfl⟩

/-- Claim C1 (amended): a first Service $04 send with no (or a falsy or
mismatched) token rejects and stores the fresh token; a retry passing the
stored nonzero token exactly is accepted, but the guard leaves the stored
token in place rather than clearing it, so the same token remains
accepted on later requests until a rejection replaces it. -/
theorem verify_token_amended (stored token : Option Nat) (fresh t : Nat) :
    ((tokenFalsy token ∨ token ≠ stored) →
      verifyToken stored token fresh = (false, some fresh)) ∧
    (t ≠ 0 → verifyToken (some t) (some t) fresh = (true, some t)) := by
  constructor
  · intro h
    unfold verifyToken
    simp only [if_pos h]
  · intro ht
    unfold verifyToken
    have hf : tokenFalsy (some t) = false := by
      match t with
      | 0 => exact absurd rfl ht
      | _ + 1 => rfl
    simp [hf]

/-- Witness for the amended claim C1: a mismatched token is rejected and
replaced, and a matching nonzero token is accepted with the stored token
unchanged. -/
theorem verify_token_amended_witness :
    verifyToken (some 1) (some 5) 7 = (false, some 7) ∧
      verifyToken (some 9) (some 9) 7 = (true, some 9) :=
  ⟨(verify_token_amended (some 1) (some 5) 7 9).1 (by decide),
   (verify_token_amended (some 9) (some 9) 7 9).2 (by decide)⟩

/-! ### ELM ASCII line decoding (ELM32X._message_bytes_from_ascii) -/

/-- Value of one hex digit, as accepted by the Python int(s, 16) parser
(digits, uppercase and lowercase letters). -/
def hexDigitValue (c : Char) : Option Nat :=
  let n := c.toNat
  if 48 ≤ n ∧ n ≤ 57 then some (n - 48)
  else if 65 ≤ n ∧ n ≤ 70 then some (n - 55)
  else if 97 ≤ n ∧ n ≤ 102 then some (n - 87)
  else none

/-- Parse a character list two digits at a time, as the loop
int(message[i:i+2], 16) for i in range(0, len(message), 2) does; a
non-hex character (or a trailing lone digit) raises ValueError. -/
def parseHexPairs : List Char → Except PyErr (List Nat)
  | [] => Except.ok []
  | [_] => Except.error PyErr.valueError
  | c1 :: c2 :: rest =>
    match hexDigitValue c1, hexDigitValue c2, parseHexPairs rest with
    | some h, some l, Except.ok bs => Except.ok ((h * 16 + l) :: bs)
    | _, _, _ => Except.error PyErr.valueError

/-- ELM32X._message_bytes_from_ascii for one ASCII line: remove all
spaces; if the remaining length is odd, left-pad with five zero
characters; parse as hex pairs. -/
def messageBytesFromAscii (line : List Char) : Except PyErr (List Nat) :=
  let stripped := line.filter (fun c => c ≠ ' ')
  let padded :=
    if stripped.length &&& 1 = 1 then
      '0' :: '0' :: '0' :: '0' :: '0' :: stripped
    else stripped
  parseHexPairs padded

theorem hexDigitValue_lt_16 {c : Char} {v : Nat} (h : hexDigitValue c = some v) :
    v < 16 := by
  simp only [hexDigitValue] at h
  split at h
  next h1 => cases h; omega
  next h1 =>
    split at h
    next h2 => cases h; omega
    next h2 =>
      split at h
      next h3 => cases h; omega
      next h3 => exact Option.noConfusion h

theorem hexDigitValue_zero : hexDigitValue '0' = some 0 := by decide

theorem parseHexPairs_cons_cons (c1 c2 : Char) (rest : List Char) :
    parseHexPairs (c1 :: c2 :: rest) =
      match hexDigitValue c1, hexDigitValue c2, parseHexPairs rest with
      | some h, some l, Except.ok bs => Except.ok ((h * 16 + l) :: bs)
      | _, _, _ => Except.error PyErr.valueError := by
  rfl

theorem parseHexPairs_pad (a : Char) (rest : List Char) :
    parseHexPairs ('0' :: '0' :: '0' :: '0' :: '0' :: a :: rest) =
      match hexDigitValue a, parseHexPairs rest with
      | some v, Except.ok bs => Except.ok (0 :: 0 :: v :: bs)
      | _, _ => Except.error PyErr.valueError := by
  cases hA : hexDigitValue a <;> cases hr : parseHexPairs rest <;>
    simp [parseHexPairs_cons_cons, hexDigitValue_zero, hA, hr]

theorem parseHexPairs_ok_cons (c1 c2 : Char) (rest : List Char) (bs : List Nat)
    (h : parseHexPairs (c1 :: c2 :: rest) = Except.ok bs) :
    ∃ v tl, bs = v :: tl := by
  rw [parseHexPairs_cons_cons] at h
  split at h
  · cases h; exact ⟨_, _, rfl⟩
  · exact Except.noConfusion h

/-- Claim C7 counterexample: the single-hex-digit line "A" has an odd
digit count, yet decoding it yields only three bytes, so the resulting
byte vector does not begin with a 4-byte header. -/
theorem message_bytes_c7_counterexample :
    messageBytesFromAscii ['A'] = Except.ok [0x00, 0x00, 0x0A] ∧
      ([0x00, 0x00, 0x0A] : List Nat).length < 4 := by
  refine ⟨rfl, by decide⟩

/-- Claim C7 (amended): converting an ELM ASCII line to raw bytes first
removes all spaces, and if the remaining hex-digit count is odd it
left-pads the digit string with five zero nibbles before parsing hex
pairs; consequently, for any line with an odd hex-digit count of at least
3 that decodes successfully, the resulting byte vector has at least 4
bytes and begins with a header whose high five nibbles are zero. -/
theorem message_bytes_odd_padding (line : List Char) (bytes : List Nat)
    (hodd : (line.filter (fun c => c ≠ ' ')).length &&& 1 = 1)
    (hlen : 3 ≤ (line.filter (fun c => c ≠ ' ')).length)
    (hok : messageBytesFromAscii line = Except.ok bytes) :
    4 ≤ bytes.length ∧ bytes.head? = some 0 ∧ bytes[1]? = some 0 ∧
      ∃ b, bytes[2]? = some b ∧ b < 16 := by
  simp only [messageBytesFromAscii] at hok
  generalize hs : line.filter (fun c => c ≠ ' ') = stripped at hodd hlen hok
  rw [if_pos hodd] at hok
  obtain ⟨a, b, c, rest, hm⟩ : ∃ a b c rest, stripped = a :: b :: c :: rest := by
    cases stripped with
    | nil => simp at hlen
    | cons a t1 =>
      cases t1 with
      | nil => simp at hlen
      | cons b t2 =>
        cases t2 with
        | nil => simp at hlen
        | cons c rest => exact ⟨a, b, c, rest, rfl⟩
  subst hm
  rw [parseHexPairs_pad] at hok
  split at hok
  · rename_i v bs hA hr
    obtain ⟨v2, tl, hbs⟩ := parseHexPairs_ok_cons b c rest bs hr
    subst hbs
    cases hok
    exact ⟨by simp, rfl, rfl, v, rfl, hexDigitValue_lt_16 hA⟩
  · exact Except.noConfusion hok

/-- Witness for the amended claim C7 at the three-digit line "ABC",
which decodes to the four bytes 00 00 0A BC. -/
theorem message_bytes_odd_padding_witness :
    4 ≤ ([0x00, 0x00, 0x0A, 0xBC] : List Nat).length ∧
      ([0x00, 0x00, 0x0A, 0xBC] : List Nat).head? = some 0 ∧
      ([0x00, 0x00, 0x0A, 0xBC] : List Nat)[1]? = some 0 ∧
      ∃ b, ([0x00, 0x00, 0x0A, 0xBC] : List Nat)[2]? = some b ∧ b < 16 :=
  message_bytes_odd_padding ['A', 'B', 'C'] [0x00, 0x00, 0x0A, 0xBC]
    (by decide) (by decide) rfl

/-! ### Bus messages and logical messages (obd/message/base.py) -/

/-- BusMessage: a complete reassembled payload.  Data bytes may contain
the None placeholder for bytes of missing frames; the originating frames
are kept as the raw byte lists of the received frames (a received Python
frame object carries exactly its raw bytes). -/
structure BusMessage where
  header : List Nat
  data_bytes : List (Option Nat)
  frames : List (Option (List Nat))
  incomplete : Bool
  deriving DecidableEq, Repr

/-- BusMessage.__init__: the incomplete flag is computed once, at
construction, as (None in data_bytes). -/
def mkBusMessage (header : List Nat) (data_bytes : List (Option Nat))
    (frames : List (Option (List Nat))) : BusMessage :=
  ⟨header, data_bytes, frames, data_bytes.contains none⟩

/-- BusMessage.sid: data_bytes[0] with the OBD response bit (0x40)
cleared; Python AND NOT 0x40 on a nonnegative integer subtracts the bit
when set. -/
def BusMessage.sid (m : BusMessage) : Except PyErr Nat :=
  match m.data_bytes.head? with
  | none => Except.error PyErr.indexError
  | some none => Except.error PyErr.typeError
  | some (some b) => Except.ok (b - (b &&& 0x40))

/-- Message: one logical OBD message carved out of a bus message. -/
structure Message where
  offset : Nat
  data_bytes : List (Option Nat)
  length : Nat
  sid : Nat
  pid : Option Nat
  incomplete : Bool
  deriving DecidableEq, Repr

/-- Message.__init__: with no fixed class length the data is the whole
tail from offset and the length is derived; with a fixed length the data
is the slice of that length.  The incomplete flag is again (None in
data_bytes), computed at construction. -/
def mkMessage (bus : BusMessage) (offset : Nat) (fixed_length : Option Nat)
    (pid : Option Nat) : Except PyErr Message :=
  let data := match fixed_length with
    | none => bus.data_bytes.drop offset
    | some l => (bus.data_bytes.drop offset).take l
  let length := match fixed_length with
    | none => data.length
    | some l => l
  match bus.sid with
  | Except.error e => Except.error e
  | Except.ok s => Except.ok ⟨offset, data, length, s, pid, data.contains none⟩

/-- Interface._return_bus_messages: raise DataError if any reassembled
message is incomplete, otherwise return the list unchanged. -/
def returnBusMessages (bus_messages : List BusMessage) :
    Except PyErr (List BusMessage) :=
  if bus_messages.any (fun r => r.incomplete) then Except.error PyErr.dataError
  else Except.ok bus_messages

/-- Claim C9: the incomplete flag of a bus message (and of a logical
message) is true exactly when some element of its data_bytes is the
missing-byte placeholder None, computed at construction; and the
bus-message result path of send_request raises a data error exactly when
some returned bus message has the flag set. -/
theorem incomplete_flag_spec (header : List Nat) (data : List (Option Nat))
    (frames : List (Option (List Nat))) (bus : BusMessage) (offset : Nat)
    (fixed_length pid : Option Nat) (msg : Message) (msgs : List BusMessage) :
    ((mkBusMessage header data frames).incomplete = true ↔ none ∈ data) ∧
    (mkMessage bus offset fixed_length pid = Except.ok msg →
      (msg.incomplete = true ↔ none ∈ msg.data_bytes)) ∧
    ((∃ e, returnBusMessages msgs = Except.error e) ↔
      ∃ m ∈ msgs, m.incomplete = true) := by
  refine ⟨?_, ?_, ?_⟩
  · exact List.elem_iff
  · intro h
    unfold mkMessage at h
    cases hs : bus.sid with
    | error e => rw [hs] at h; exact Except.noConfusion h
    | ok s =>
      rw [hs] at h
      cases h
      exact List.elem_iff
  · unfold returnBusMessages
    by_cases h : msgs.any (fun r => r.incomplete) = true
    · rw [if_pos h]
      constructor
      · intro _; exact List.any_eq_true.mp h
      · intro _; exact ⟨PyErr.dataError, rfl⟩
    · rw [if_neg (by simp only [Bool.not_eq_true] at h; simp [h])]
      constructor
      · rintro ⟨e, he⟩; exact Except.noConfusion he
      · intro hex; exact absurd (List.any_eq_true.mpr hex) h

/-- Witness for claim C9 at a concrete incomplete bus message. -/
theorem incomplete_flag_spec_witness :
    (((mkBusMessage [0x18] [some 0x41, none] []).incomplete = true ↔
        none ∈ ([some 0x41, none] : List (Option Nat))) ∧
      ((⟨0, [some 0x41, none], 2, 1, none, true⟩ : Message).incomplete = true ↔
        none ∈ (⟨0, [some 0x41, none], 2, 1, none, true⟩ : Message).data_bytes)) ∧
      ((∃ e, returnBusMessages [mkBusMessage [0x18] [some 0x41, none] []] =
          Except.error e) ↔
        ∃ m ∈ [mkBusMessage [0x18] [some 0x41, none] []], m.incomplete = true) := by
  have h := incomplete_flag_spec [0x18] [some 0x41, none] []
    (mkBusMessage [0x18] [some 0x41, none] []) 0 none none
    ⟨0, [some 0x41, none], 2, 1, none, true⟩
    [mkBusMessage [0x18] [some 0x41, none] []]
  exact ⟨⟨h.1, h.2.1 rfl⟩, h.2.2⟩

/-! ### Variable-length responses (obd/message/response.py) -/

/-- Message.decode_string: join chr(c) over the bytes, skipping zero
bytes; a None placeholder is not filtered ((None != 0) is true) and
chr(None) raises TypeError. -/
def decodeChars : List (Option Nat) → Except PyErr (List Char)
  | [] => Except.ok []
  | none :: _ => Except.error PyErr.typeError
  | some 0 :: rest => decodeChars rest
  | some (n + 1) :: rest =>
    match decodeChars rest with
    | Except.ok cs => Except.ok (Char.ofNat (n + 1) :: cs)
    | Except.error e => Except.error e

/-- Message.decode_string, producing the joined string. -/
def decodeString (byte_list : List (Option Nat)) : Except PyErr String :=
  match decodeChars byte_list with
  | Except.ok cs => Except.ok (String.mk cs)
  | Except.error e => Except.error e

/-- Message.decode_integer: big-endian accumulation (value <<= 8;
value += b); adding a None placeholder raises TypeError. -/
def decodeInteger (byte_list : List (Option Nat)) : Except PyErr Nat :=
  byte_list.foldlM (fun value b =>
    match b with
    | some b => Except.ok ((value <<< 8) + b)
    | none => Except.error PyErr.typeError) 0

/-- VariableLengthResponse: the decoded envelope of a variable-length
response. -/
structure VariableLengthResponse where
  item_count_byte : Option Nat
  item_count : Nat
  length : Nat
  data_bytes : List (Option Nat)
  incomplete : Bool
  deriving DecidableEq, Repr

/-- VariableLengthResponse.__init__ combined with the Message
initializer it invokes.  On ISO 15765 (CAN) the byte at the offset is a
preceding number-of-items byte fixing the length as count * item_length
+ 1 before the data slice is taken; on legacy protocols there is no such
byte, the data is the whole tail and the item count is inferred as
length // item_length. -/
def mkVariableLengthResponse (isCan : Bool) (item_length : Nat)
    (busData : List (Option Nat)) (offset : Nat) :
    Except PyErr VariableLengthResponse :=
  if isCan then
    match busData[offset]? with
    | none => Except.error PyErr.indexError
    | some none => Except.error PyErr.typeError
    | some (some icb) =>
      let length := icb * item_length + 1
      let data := (busData.drop offset).take length
      Except.ok ⟨some icb, icb, length, data, data.contains none⟩
  else
    let data := busData.drop offset
    Except.ok ⟨none, data.length / item_length, data.length, data,
      data.contains none⟩

/-- VariableLengthResponse._get_items_offset: skip the item-count byte
when present. -/
def getItemsOffset (r : VariableLengthResponse) : Nat :=
  if r.item_count_byte.isSome then 1 else 0

/-- VariableLengthResponse._get_item_bytes: item i is the slice of
item_length bytes starting at items_offset + i * item_length (the Python
loop advances a running offset by item_length per iteration). -/
def getItemBytes (r : VariableLengthResponse) (items_offset item_length : Nat) :
    List (List (Option Nat)) :=
  (List.range r.item_count).map fun i =>
    (r.data_bytes.drop (items_offset + i * item_length)).take item_length

theorem join_range_chunks (l : List (Option Nat)) (k : Nat) :
    ∀ n, ((List.range n).map fun i => (l.drop (i * k)).take k).flatten =
      l.take (n * k) := by
  intro n
  induction n with
  | zero => simp
  | succ m ih =>
    rw [List.range_succ, List.map_append, List.flatten_append, ih]
    simp [Nat.succ_mul, List.take_add]

/-- Claim C10: for a variable-length response on a legacy protocol the
item count is floor(length / item_length); when the length is not a
multiple of item_length the items cover strictly fewer bytes than the
payload and the trailing remainder bytes are ignored (the construction
still succeeds, reporting no error). -/
theorem variable_length_legacy_truncates (item_length : Nat)
    (busData : List (Option Nat)) (offset : Nat) (r : VariableLengthResponse)
    (hr : mkVariableLengthResponse false item_length busData offset = Except.ok r)
    (hrem : r.length % item_length ≠ 0) :
    r.item_count = r.length / item_length ∧
    r.item_count * item_length < r.length ∧
    (getItemBytes r 0 item_length).flatten =
      r.data_bytes.take (r.length - r.length % item_length) := by
  unfold mkVariableLengthResponse at hr
  cases hr
  have hdm := Nat.div_add_mod ((List.drop offset busData).length) item_length
  have hc : (List.drop offset busData).length / item_length * item_length =
      item_length * ((List.drop offset busData).length / item_length) :=
    Nat.mul_comm _ _
  refine ⟨rfl, ?_, ?_⟩
  · simp only [VariableLengthResponse.length, VariableLengthResponse.item_count]
      at hrem ⊢
    omega
  · unfold getItemBytes
    simp only [getItemsOffset, Nat.zero_add]
    rw [join_range_chunks]
    congr 1
    simp only [VariableLengthResponse.length] at hrem ⊢
    omega

/-- Witness for claim C10: a legacy SID $03 DTC payload of five bytes
(two DTC pairs plus one trailing byte) yields two items and drops the
final byte. -/
theorem variable_length_legacy_truncates_witness :
    (⟨none, 2, 5, [some 0x01, some 0x43, some 0x00, some 0x00, some 0x41],
        false⟩ : VariableLengthResponse).item_count =
      (⟨none, 2, 5, [some 0x01, some 0x43, some 0x00, some 0x00, some 0x41],
        false⟩ : VariableLengthResponse).length / 2 ∧
    (⟨none, 2, 5, [some 0x01, some 0x43, some 0x00, some 0x00, some 0x41],
        false⟩ : VariableLengthResponse).item_count * 2 <
      (⟨none, 2, 5, [some 0x01, some 0x43, some 0x00, some 0x00, some 0x41],
        false⟩ : VariableLengthResponse).length ∧
    (getItemBytes ⟨none, 2, 5,
        [some 0x01, some 0x43, some 0x00, some 0x00, some 0x41], false⟩ 0 2).flatten =
      (⟨none, 2, 5, [some 0x01, some 0x43, some 0x00, some 0x00, some 0x41],
        false⟩ : VariableLengthResponse).data_bytes.take
        ((⟨none, 2, 5, [some 0x01, some 0x43, some 0x00, some 0x00, some 0x41],
          false⟩ : VariableLengthResponse).length -
         (⟨none, 2, 5, [some 0x01, some 0x43, some 0x00, some 0x00, some 0x41],
          false⟩ : VariableLengthResponse).length % 2) :=
  variable_length_legacy_truncates 2
    [some 0x43, some 0x01, some 0x43, some 0x00, some 0x00, some 0x41] 1
    ⟨none, 2, 5, [some 0x01, some 0x43, some 0x00, some 0x00, some 0x41], false⟩
    rfl (by decide)

/-! ### DTC decoding (obd/message/sid03.py) -/

/-- Uppercase hex digit character, as produced by the %X format. -/
def hexUpperDigit (n : Nat) : Char :=
  if n < 10 then Char.ofNat (48 + n) else Char.ofNat (55 + n)

/-- The %04X format for values below 0x10000 (DTC numeric parts are 14
bits wide): exactly four uppercase hex digits. -/
def toHex4 (n : Nat) : String :=
  String.mk [hexUpperDigit (n / 4096 % 16), hexUpperDigit (n / 256 % 16),
    hexUpperDigit (n / 16 % 16), hexUpperDigit (n % 16)]

/-- DTC.__str__: zero prints as "None"; otherwise the letter indexed
among P, C, B, U by the top two bits of the 16-bit value, followed by
the low 14 bits as four hex digits. -/
def dtcStr (value : Nat) : String :=
  if value = 0 then "None"
  else
    let numeric := value &&& 0x3FFF
    let alpha := (value >>> 14) &&& 3
    String.mk [['P', 'C', 'B', 'U'].getD alpha 'P'] ++ toHex4 numeric

/-- DTCResponse: the decoded response to a Service $03 (or $07)
request. -/
structure DTCResponse where
  base : VariableLengthResponse
  items : List (List (Option Nat))
  dtcs : List Nat
  deriving DecidableEq, Repr

/-- DTCResponse.__init__ (item_length 2): collect the two-byte items,
decode each as a 16-bit integer, and keep the nonzero ones. -/
def mkDTCResponse (isCan : Bool) (busData : List (Option Nat)) (offset : Nat) :
    Except PyErr DTCResponse :=
  match mkVariableLengthResponse isCan 2 busData offset with
  | Except.error e => Except.error e
  | Except.ok base =>
    let items := getItemBytes base (getItemsOffset base) 2
    match items.mapM decodeInteger with
    | Except.error e => Except.error e
    | Except.ok values => Except.ok ⟨base, items, values.filter (fun v => v ≠ 0)⟩

/-- Claim C3 counterexample: the legacy SID $03 payload
43 01 43 00 00 41 96 00 00 decodes to the DTCs P0143 and C0196 (the pair
0x4196 has top bits 01, selecting C), not to the claimed set
containing P4196, which no 16-bit pair can even print (the numeric part
is only 14 bits). -/
theorem dtc_c3_counterexample :
    (mkDTCResponse false [some 0x43, some 0x01, some 0x43, some 0x00,
        some 0x00, some 0x41, some 0x96, some 0x00, some 0x00] 1).map
        (fun r => r.dtcs.map dtcStr) =
      Except.ok ["P0143", "C0196"] ∧
      (["P0143", "C0196"] : List String) ≠ ["P0143", "P4196"] ∧
      "P4196" ∉ (["P0143", "C0196"] : List String) := by
  refine ⟨rfl, by decide, by decide⟩

/-- Claim C3 (amended): decoding the SID $03 payload
43 01 43 00 00 41 96 00 00 as a legacy response yields exactly the DTC
values 0x0143 and 0x4196, printed as P0143 and C0196: byte pairs form
16-bit codes, the high two bits select the letter among P, C, B, U, the
low 14 bits print as four hex digits, and zero-valued pairs are
discarded. -/
theorem dtc_decode_spec :
    (mkDTCResponse false [some 0x43, some 0x01, some 0x43, some 0x00,
        some 0x00, some 0x41, some 0x96, some 0x00, some 0x00] 1).map
        (fun r => (r.dtcs, r.dtcs.map dtcStr)) =
      Except.ok ([0x0143, 0x4196], ["P0143", "C0196"]) := rfl

/-! ### PID-support responses (obd/message/sid01.py) -/

/-- The loop of PIDSupportResponse.__init__: for pid_bit in 1..32 test
bit (32 - pid_bit) of the decoded 32-bit integer and append
pid + pid_bit to the supported list when set. -/
def pidSupportedPids (base_pid bits : Nat) : List Nat :=
  (List.range' 1 32).foldl (fun acc pid_bit =>
    if bits &&& (1 <<< (32 - pid_bit)) ≠ 0 then acc ++ [base_pid + pid_bit]
    else acc) []

/-- PIDSupportResponse: the decoded PID-support bitmap response. -/
structure PIDSupportResponse where
  data_bytes : List (Option Nat)
  supported_pids : List Nat
  deriving DecidableEq, Repr

/-- PIDSupportResponse.__init__ (fixed length 4): assert the base PID is
a multiple of 0x20, slice four data bytes, decode them big-endian, and
collect the supported PIDs. -/
def mkPIDSupportResponse (busData : List (Option Nat)) (offset : Nat)
    (pid : Nat) : Except PyErr PIDSupportResponse :=
  if pid &&& 0x1F ≠ 0 then Except.error PyErr.assertionError
  else
    let data := (busData.drop offset).take 4
    match decodeInteger data with
    | Except.error e => Except.error e
    | Except.ok bits => Except.ok ⟨data, pidSupportedPids pid bits⟩

theorem foldl_if_append {α β : Type} (p : α → Prop) [DecidablePred p] (f : α → β) :
    ∀ (l : List α) (acc : List β),
      l.foldl (fun acc x => if p x then acc ++ [f x] else acc) acc =
        acc ++ (l.filter (fun x => decide (p x))).map f := by
  intro l
  induction l with
  | nil => intro acc; simp
  | cons x xs ih =>
    intro acc
    by_cases hx : p x
    · simp [hx, ih, List.filter_cons]
    · simp [hx, ih, List.filter_cons]

theorem pidSupportedPids_eq (base_pid bits : Nat) :
    pidSupportedPids base_pid bits =
      ((List.range' 1 32).filter
        (fun k => decide (bits &&& (1 <<< (32 - k)) ≠ 0))).map
        (fun k => base_pid + k) := by
  unfold pidSupportedPids
  rw [foldl_if_append (fun k => bits &&& (1 <<< (32 - k)) ≠ 0)
    (fun k => base_pid + k) (List.range' 1 32) []]
  simp

/-- Claim C5: for a PID-support response with base PID a multiple of
0x20 and payload bytes a b c d, the response decodes successfully and
bit (32 - k) of the 32-bit big-endian integer is the support flag for
PID base + k for every k in 1..32; the all-zero payload yields no
supported PIDs and the all-FF payload yields exactly base+1..base+0x20. -/
theorem pid_support_spec (base_pid a b c d : Nat) (hbase : base_pid &&& 0x1F = 0) :
    (mkPIDSupportResponse [some a, some b, some c, some d] 0 base_pid =
      Except.ok ⟨[some a, some b, some c, some d],
        pidSupportedPids base_pid (a * 2 ^ 24 + b * 2 ^ 16 + c * 2 ^ 8 + d)⟩) ∧
    (∀ k, 1 ≤ k → k ≤ 32 →
      (base_pid + k ∈
          pidSupportedPids base_pid (a * 2 ^ 24 + b * 2 ^ 16 + c * 2 ^ 8 + d) ↔
        (a * 2 ^ 24 + b * 2 ^ 16 + c * 2 ^ 8 + d) &&& (1 <<< (32 - k)) ≠ 0)) ∧
    pidSupportedPids base_pid 0 = [] ∧
    pidSupportedPids base_pid 0xFFFFFFFF =
      (List.range' 1 32).map (fun k => base_pid + k) := by
  have hbits : decodeInteger [some a, some b, some c, some d] =
      Except.ok (a * 2 ^ 24 + b * 2 ^ 16 + c * 2 ^ 8 + d) := by
    have h0 : decodeInteger [some a, some b, some c, some d] =
        Except.ok ((((0 <<< 8 + a) <<< 8 + b) <<< 8 + c) <<< 8 + d) := rfl
    rw [h0]
    congr 1
    simp only [Nat.shiftLeft_eq]
    ring
  refine ⟨?_, ?_, ?_, ?_⟩
  · simp [mkPIDSupportResponse, hbase, hbits]
  · intro k h1 h2
    rw [pidSupportedPids_eq]
    simp only [List.mem_map, List.mem_filter]
    constructor
    · rintro ⟨j, ⟨hj_mem, hj_p⟩, hj_eq⟩
      have hjk : j = k := by omega
      subst hjk
      simpa using hj_p
    · intro hp
      exact ⟨k, ⟨List.mem_range'_1.mpr ⟨h1, by omega⟩, by simpa using hp⟩, rfl⟩
  · rw [pidSupportedPids_eq]
    simp [Nat.zero_and]
  · rw [pidSupportedPids_eq]
    congr 1

/-- Witness for claim C5 at base PID 0x20 with the all-zero payload. -/
theorem pid_support_spec_witness :
    (mkPIDSupportResponse [some 0, some 0, some 0, some 0] 0 0x20 =
      Except.ok ⟨[some 0, some 0, some 0, some 0],
        pidSupportedPids 0x20 (0 * 2 ^ 24 + 0 * 2 ^ 16 + 0 * 2 ^ 8 + 0)⟩) ∧
      pidSupportedPids 0x20 0 = [] :=
  ⟨(pid_support_spec 0x20 0 0 0 0 (by decide)).1,
   (pid_support_spec 0x20 0 0 0 0 (by decide)).2.2.1⟩

/-! ### VIN decoding (obd/message/sid09.py, obd/message/response.py) -/

/-- VINResponse: the decoded vehicle identification number response. -/
structure VINResponse where
  base : VariableLengthResponse
  items : List String
  values : List (String × String)
  deriving DecidableEq, Repr

/-- VINResponse through Service09Response and VariableLengthResponse:
item length 17; the items start at offset 1 on CAN (skipping the
item-count byte) or 3 on legacy protocols (skipping the NUL padding);
each item is decoded as a string (zero bytes removed); the values zip
the single label VIN with the decoded items; a NODI other than 1 raises
J1699Failure. -/
def mkVINResponse (isCan : Bool) (busData : List (Option Nat)) (offset : Nat) :
    Except PyErr VINResponse :=
  match mkVariableLengthResponse isCan 17 busData offset with
  | Except.error e => Except.error e
  | Except.ok base =>
    let items_offset := if base.item_count_byte.isSome then 1 else 3
    let raw_items := getItemBytes base items_offset 17
    match raw_items.mapM decodeString with
    | Except.error e => Except.error e
    | Except.ok strs =>
      let values := List.zip ["VIN"] strs
      if strs.length ≠ 1 then Except.error PyErr.j1699Error
      else Except.ok ⟨base, strs, values⟩

/-- Claim C8: the ISO-15765 bus message with payload
49 02 01 31 47 31 4A 43 35 34 34 34 52 37 32 35 32 33 36 37 decodes (at
the post-PID offset 2) to a VIN response whose single text value is the
17-character string 1G1JC5444R7252367: on CAN the leading item-count
byte after SID and PID is stripped, and NUL bytes are removed from the
ASCII. -/
theorem vin_decode_c8 :
    (mkVINResponse true [some 0x49, some 0x02, some 0x01, some 0x31,
        some 0x47, some 0x31, some 0x4A, some 0x43, some 0x35, some 0x34,
        some 0x34, some 0x34, some 0x52, some 0x37, some 0x32, some 0x35,
        some 0x32, some 0x33, some 0x36, some 0x37] 2).map (fun r => r.values) =
      Except.ok [("VIN", "1G1JC5444R7252367")] ∧
      "1G1JC5444R7252367".length = 17 :=
  ⟨rfl, rfl⟩

/-! ### Multi-frame reassembly (Interface._received_obd_frame) -/

/-- An ISO 15765 frame as parsed by ISO15765_4.create_frame: the header
is the first four raw bytes (11-bit CAN headers have already been padded
to four bytes by the ELM line decoder) and the data bytes are the
rest. -/
structure ISO15765Frame where
  raw_bytes : List Nat
  deriving DecidableEq, Repr

def ISO15765Frame.header (f : ISO15765Frame) : List Nat := f.raw_bytes.take 4

def ISO15765Frame.data_bytes (f : ISO15765Frame) : List Nat := f.raw_bytes.drop 4

/-- ISO15765Frame.assemble_message: concatenate the frame payloads,
skipping 1 PCI byte per frame (2 for the first frame of a multi-frame
message); a missing frame contributes one None placeholder per data byte,
counted from the data length of the frame the method is invoked on. -/
def iso15765AssembleMessage (selfData : List Nat)
    (frames : List (Option ISO15765Frame)) : List (Option Nat) :=
  (frames.enum.map (fun p =>
    let offset := if p.1 = 0 ∧ frames.length > 1 then 2 else 1
    match p.2 with
    | none => List.replicate (selfData.length - offset) (none : Option Nat)
    | some fr => (fr.data_bytes.drop offset).map some)).flatten

/-- One in-flight entry of the pending map _frames_received: the slot
list, the most recently stored sequence number, and the recorded
sequence length. -/
structure PendingEntry where
  frames : List (Option ISO15765Frame)
  last_sequence_number : Option Nat
  sequence_length : Option Nat
  deriving DecidableEq, Repr

/-- The reassembler state: the pending map (modelled as an association
list keyed by the sequence key, which for ISO 15765 frames is the header
bytes) and the completed-messages queue. -/
structure ReassemblyState where
  frames_received : List (List Nat × PendingEntry)
  complete_messages : List BusMessage
  deriving DecidableEq, Repr

def initialReassemblyState : ReassemblyState := ⟨[], []⟩

def lookupEntry (m : List (List Nat × PendingEntry)) (key : List Nat) :
    Option PendingEntry :=
  (m.find? (fun p => decide (p.1 = key))).map (fun p => p.2)

def setEntry (m : List (List Nat × PendingEntry)) (key : List Nat)
    (e : PendingEntry) : List (List Nat × PendingEntry) :=
  if m.any (fun p => decide (p.1 = key)) then
    m.map (fun p => if p.1 = key then (key, e) else p)
  else m ++ [(key, e)]

def eraseEntry (m : List (List Nat × PendingEntry)) (key : List Nat) :
    List (List Nat × PendingEntry) :=
  m.filter (fun p => decide (p.1 ≠ key))

/-- The frames_needed computation of _received_obd_frame: the recorded
sequence length when positive (Python truthiness treats both None and 0
as unknown), else one more than the sequence number when known, else
0. -/
def framesNeededOf (sequence_length sequence_number : Option Nat) : Nat :=
  match sequence_length with
  | some (l + 1) => l + 1
  | _ =>
    match sequence_number with
    | none => 0
    | some sn => sn + 1

/-- The slot-list growth of _received_obd_frame: extend with None
placeholders until the list has at least frames_needed slots. -/
def growFrames (frames : List (Option ISO15765Frame)) (frames_needed : Nat) :
    List (Option ISO15765Frame) :=
  if frames.length < frames_needed then
    frames ++ List.replicate (frames_needed - frames.length) none
  else frames

/-- Interface._received_obd_frame specialised to the ISO 15765 protocol
(the vehicle protocol of the interface is fixed): parse the frame,
compute its sequence key, number, and length, grow the slot list, insert
the frame (an out-of-range sequence number raises IndexError exactly as
the Python list assignment does), and either post the completed bus
message and erase the entry, or store the updated entry. -/
def receivedObdFrame (st : ReassemblyState) (raw_frame : List Nat) :
    Except PyErr ReassemblyState :=
  let frame : ISO15765Frame := ⟨raw_frame⟩
  let key := frame.header
  let entry := (lookupEntry st.frames_received key).getD ⟨[], some 0, none⟩
  match iso15765SequenceNumber frame.data_bytes entry.last_sequence_number with
  | Except.error e => Except.error e
  | Except.ok sequence_number =>
    match (match entry.sequence_length with
           | none => iso15765SequenceLength frame.data_bytes
           | some l => Except.ok (some l)) with
    | Except.error e => Except.error e
    | Except.ok sequence_length =>
      let frames₀ :=
        growFrames entry.frames (framesNeededOf sequence_length sequence_number)
      match (match sequence_number with
             | some sn =>
               if sn < frames₀.length then
                 Except.ok (frames₀.set sn (some frame))
               else Except.error PyErr.indexError
             | none =>
               match frames₀.findIdx? (fun f => Option.isNone f) with
               | some j => Except.ok (frames₀.set j (some frame))
               | none => Except.ok (frames₀ ++ [some frame])) with
      | Except.error e => Except.error e
      | Except.ok frames₁ =>
        if sequence_length.isSome ∧ ¬ frames₁.any (fun f => Option.isNone f) then
          match frames₁.head? with
          | some (some first) =>
            Except.ok ⟨eraseEntry st.frames_received key,
              st.complete_messages ++
                [mkBusMessage frame.header
                  (iso15765AssembleMessage first.data_bytes frames₁)
                  (frames₁.map (fun f => f.map (fun fr => fr.raw_bytes)))]⟩
          | _ => Except.error PyErr.indexError
        else
          Except.ok ⟨setEntry st.frames_received key
            ⟨frames₁, sequence_number, sequence_length⟩,
            st.complete_messages⟩

/-- Feed a sequence of raw frames through the reassembler starting from
the empty pending map (the state after a flush). -/
def runReceivedFrames (raw_frames : List (List Nat)) :
    Except PyErr ReassemblyState :=
  raw_frames.foldlM receivedObdFrame initialReassemblyState

/-- Claim C4 counterexample: a First Frame declaring 8 total data bytes
records sequence length 2 and a two-slot list; a Consecutive Frame with
PCI counter 2 then gets sequence number 2 but the slot list is not
grown past the recorded length, so the insertion indexes past the end
of the list and processing fails with IndexError — the slot list length
(2) is not at least the maximum seen sequence number plus one (3). -/
theorem reassembly_c4_counterexample :
    runReceivedFrames
        [[0x18, 0xDA, 0xF1, 0x10, 0x10, 0x08, 0x01, 0x02, 0x03, 0x04, 0x05, 0x06],
         [0x18, 0xDA, 0xF1, 0x10, 0x22, 0x07, 0x08]] =
      Except.error PyErr.indexError := rfl

/-- Claim C4 (amended): after the growth step of _received_obd_frame the
slot list always has room for the frame's sequence number whenever the
entry's sequence length is unknown (or zero, which Python truthiness
also treats as unknown) — the list is grown to sequence number + 1
slots; with a positive recorded sequence length L the grown list has
only max(current length, L) slots, so a sequence number is in range
exactly when it is below the current length or below L. -/
theorem frames_needed_growth_spec (frames : List (Option ISO15765Frame))
    (sn : Nat) :
    (∀ sl : Option Nat, (sl = none ∨ sl = some 0) →
      sn < (growFrames frames (framesNeededOf sl (some sn))).length) ∧
    (∀ L : Nat,
      (sn < (growFrames frames (framesNeededOf (some (L + 1)) (some sn))).length ↔
        (sn < frames.length ∨ sn < L + 1))) := by
  constructor
  · intro sl hsl
    have hneed : framesNeededOf sl (some sn) = sn + 1 := by
      rcases hsl with h | h <;> subst h <;> rfl
    rw [hneed]
    unfold growFrames
    split
    · simp only [List.length_append, List.length_replicate]
      omega
    · omega
  · intro L
    have hneed : framesNeededOf (some (L + 1)) (some sn) = L + 1 := rfl
    rw [hneed]
    unfold growFrames
    split
    · simp only [List.length_append, List.length_replicate]
      omega
    · omega

/-- Witness for the amended claim C4: with an unknown sequence length a
frame with sequence number 2 always fits after growth (here from an
empty slot list), while with recorded sequence length 2 it does not. -/
theorem frames_needed_growth_spec_witness :
    (2 < (growFrames [] (framesNeededOf none (some 2))).length) ∧
      (2 < (growFrames [] (framesNeededOf (some 2) (some 2))).length ↔
        (2 < ([] : List (Option ISO15765Frame)).length ∨ 2 < 2)) :=
  ⟨(frames_needed_growth_spec [] 2).1 none (Or.inl rfl),
   (frames_needed_growth_spec [] 2).2 1⟩

end PyOBD
